import Mathlib

/-!
Shallow embedding of the basket/sample feature-extraction pipeline of
`pipelines/data_handler/processor.py` (the `Processor` base class,
`SquadProcessor`, and `TextSimilarityProcessor`).

Python strings are modelled as Lean `String`s; where the code indexes or
slices at character level we work on `String.data : List Char` (a Python
`str` is a sequence of code points).  Machine integers are `Int`/`Nat`
(Python integers are unbounded, so no wrap-around modelling is needed).
Fallible code is modelled with `Option`/`Except`.  External collaborators
(tokenizers, offset utilities, the randomized shuffler) are taken as
explicit function parameters whose documented contracts become hypotheses
of the theorems.
-/

namespace PipelinesProc

/-! ## Generic Python-style helpers -/

/-- Python `s[a:b]` on a list, for non-negative bounds: clamping slice. -/
def pySlice (l : List Char) (a b : Nat) : List Char :=
  (l.take b).drop a

/-- Python `str.strip()`: remove leading and trailing whitespace. -/
def pyStrip (l : List Char) : List Char :=
  (l.dropWhile Char.isWhitespace).reverse.dropWhile Char.isWhitespace |>.reverse

/-- Does the first list start with the second list being a left part of it
(`listStartsWith needle hay = true` iff `needle` is an initial segment of `hay`). -/
def listStartsWith : List Char → List Char → Bool
  | [], _ => true
  | _ :: _, [] => false
  | a :: as, b :: bs => a == b && listStartsWith as bs

/-- Python `needle in hay` for strings: substring containment test. -/
def pySubstrTest (needle hay : List Char) : Bool :=
  (List.range (hay.length + 1)).any (fun i => listStartsWith needle (hay.drop i))

/-! ## `TextSimilarityProcessor._normalize_question` (processor.py lines 991-996)

```python
if question[-1] == "?":
    question = question[:-1]
return question
```
`question[-1]` raises `IndexError` on the empty string; the `none` result
models that exception. -/

def normalizeQuestion (question : String) : Option String :=
  match question.data.getLast? with
  | none => none
  | some c => if c = '?' then some (String.mk question.data.dropLast) else some question

/-! ## `SquadProcessor.__init__` stride check (processor.py lines 254-259)

```python
assert doc_stride < (max_seq_len - max_query_length), ...
```
`squadInitAccepts = true` means the assertion passes (construction succeeds);
`false` means an `AssertionError` (configuration error) is raised. -/

def squadInitAccepts (docStride maxSeqLen maxQueryLength : Int) : Bool :=
  docStride < maxSeqLen - maxQueryLength

/-! ## QA data model -/

/-- One gold answer of a SQuAD question: `{"text": ..., "answer_start": ...}`. -/
structure Answer where
  text : String
  answer_start : Nat
deriving DecidableEq, Repr

/-- One entry of the internal `qas` list. -/
structure QAEntry where
  question : String
  id : Option String
  answers : List Answer
  answer_type : Option String
deriving DecidableEq, Repr

/-- A QA input dictionary.  Each field is `none` when the corresponding key
is absent from the Python dict.  The internal shape uses `context`/`qas`,
the external API shape uses `text`/`questions`/`id`. -/
structure QaInputDict where
  context : Option String := none
  qas : Option (List QAEntry) := none
  text : Option String := none
  questions : Option (List String) := none
  id : Option String := none
deriving DecidableEq, Repr

/-! ## `SquadProcessor.convert_qa_input_dict` (processor.py lines 332-363)

Re-checks the stride assertion, passes internal-format dicts through
unchanged, rewrites the external format, and raises on a `KeyError`
(missing `questions`/`text`). -/

def convertQaInputDict (docStride maxSeqLen maxQueryLength : Int)
    (d : QaInputDict) : Except String QaInputDict :=
  if ¬ (docStride < maxSeqLen - maxQueryLength) then
    Except.error "doc_stride is longer than max_seq_len minus space reserved for query tokens"
  else if d.context.isSome && d.qas.isSome then
    Except.ok d
  else
    match d.questions, d.text with
    | some qs, some t =>
        Except.ok
          { context := some t
            qas := some (qs.map fun q =>
              { question := q, id := d.id, answers := [], answer_type := none }) }
    | _, _ => Except.error "Input does not have the expected format"

/-! ## Tokenizer collaborator for QA (spec section 6)

Modelled from the spec: the tokenizer itself is an external collaborator.
`build_inputs_with_special_tokens(a, b)` "inserts model-specific special
tokens around and between two token sequences", so it is modelled by three
fixed special-token blocks `startToks`/`midToks`/`endToks`.  Probing the
insertion with two placeholder single-token sequences
(`_initialize_special_tokens_count`, lines 365-370) then yields exactly the
lengths of those blocks (`sp_toks_start`/`sp_toks_mid`/`sp_toks_end`).
`create_token_type_ids_from_sequences` and the pair special-token count are
kept abstract. -/

structure QATokenizer where
  startToks : List Nat
  midToks : List Nat
  endToks : List Nat
  segIds : List Nat → List Nat → List Nat
  numSpecialPair : Nat
  padTokenId : Nat

/-- `tokenizer.build_inputs_with_special_tokens(token_ids_0, token_ids_1)`. -/
def buildInputsWithSpecialTokens (tok : QATokenizer) (a b : List Nat) : List Nat :=
  tok.startToks ++ a ++ tok.midToks ++ b ++ tok.endToks

/-- `self.sp_toks_start` as derived by `_initialize_special_tokens_count`. -/
def spToksStart (tok : QATokenizer) : Nat := tok.startToks.length

/-- `self.sp_toks_mid` as derived by `_initialize_special_tokens_count`. -/
def spToksMid (tok : QATokenizer) : Nat := tok.midToks.length

/-- `self.sp_toks_end` as derived by `_initialize_special_tokens_count`. -/
def spToksEnd (tok : QATokenizer) : Nat := tok.endToks.length

/-! ## Baskets and samples (QA) -/

/-- `sample.tokenized` for a QA sample (one passage window), as filled by
`_split_docs_into_passages` (lines 430-446); `labels` is added later by
`_convert_answers` (line 547). -/
structure QATokenized where
  passage_start_t : Int
  passage_start_c : Nat
  passage_tokens : List Nat
  passage_start_of_word : List Nat
  question_tokens : List Nat
  question_offsets : List Int
  question_start_of_word : List Nat
  labels : Option (List (Int × Int)) := none
deriving DecidableEq, Repr

/-- The fixed-width QA feature record built by `_passages_to_paddle_features`
(lines 644-657). -/
structure QAFeatureRow where
  input_ids : List Nat
  padding_mask : List Nat
  segment_ids : List Nat
  passage_start_t : Int
  start_of_word : List Nat
  labels : List (Int × Int)
  id : List Int
  seq_2_start_t : Nat
  span_mask : List Nat
deriving DecidableEq, Repr

/-- A QA `Sample` (one passage window). -/
structure QASample where
  id : String
  tokenized : QATokenized
  features : Option (List QAFeatureRow) := none
deriving DecidableEq, Repr

/-- `basket.raw` after `tokenize_batch_question_answering` (an external
collaborator) has added token sequences, offsets and start-of-word flags. -/
structure QARaw where
  document_text : String
  document_tokens : List Nat
  document_offsets : List Int
  document_start_of_word : List Nat
  question_text : String
  question_tokens : List Nat
  question_offsets : List Int
  question_start_of_word : List Nat
  answers : List Answer
deriving DecidableEq, Repr

/-- A QA `SampleBasket`; `samples = none` models the unset state before
windowing. -/
structure QABasket where
  id_internal : String
  raw : QARaw
  samples : Option (List QASample) := none
deriving DecidableEq, Repr

/-! ## `SquadProcessor._convert_answers` (processor.py lines 459-549)

The character→token offset lookup `offset_to_token_idx_vecorized` is an
external collaborator, taken as the parameter `o2t` (already applied to the
document offsets).  `offBase` components `spS`/`spM` are
`self.sp_toks_start`/`self.sp_toks_mid`. -/

/-- `answer_start_t` relative to the passage (lines 479-490). -/
def answerStartT (o2t : Int → Int) (passageStartT : Int) (a : Answer) : Int :=
  o2t a.answer_start - passageStartT

/-- `answer_end_t` relative to the passage (lines 478-492):
`answer_end_c = answer_start_c + len(answer["text"]) - 1`. -/
def answerEndT (o2t : Int → Int) (passageStartT : Int) (a : Answer) : Int :=
  o2t ((a.answer_start : Int) + a.text.length - 1) - passageStartT

/-- The loop body over the answers of one sample (lines 476-545).
`acc` is the `label_idxs` matrix (a row per answer slot), `i` the loop
index; the returned `Bool` is the value of `error_in_answer` contributed by
this sample.  The two `-100` exits model the `break` statements. -/
def convertAnswersLoop (o2t : Int → Int) (spS spM : Nat) (doc : List Char)
    (passageStartT : Int) (qlen plen : Nat) :
    List Answer → Nat → List (Int × Int) → List (Int × Int) × Bool
  | [], _, acc => (acc, false)
  | a :: rest, i, acc =>
    let sT := answerStartT o2t passageStartT a
    let eT := answerEndT o2t passageStartT a
    let acc :=
      if (plen : Int) > sT ∧ sT ≥ 0 ∧ (plen : Int) ≥ eT ∧ eT ≥ 0 then
        acc.set i ((spS : Int) + qlen + spM + sT, (spS : Int) + qlen + spM + eT)
      else
        acc.set i (0, 0)
    if sT < 0 ∨ eT ≥ (plen : Int) then
      convertAnswersLoop o2t spS spM doc passageStartT qlen plen rest (i + 1) acc
    else
      let answerIndices := pySlice doc a.answer_start (a.answer_start + a.text.length)
      if ¬ pySubstrTest a.text.data doc then
        (acc.set i (-100, -100), true)
      else if pyStrip answerIndices ≠ pyStrip a.text.data then
        (acc.set i (-100, -100), true)
      else
        convertAnswersLoop o2t spS spM doc passageStartT qlen plen rest (i + 1) acc

/-- Label computation for one sample (lines 466-547).  `errorIn` is the
incoming `error_in_answer` flag of the basket; the result pairs the final
`label_idxs` with the outgoing flag. -/
def convertAnswersSample (o2t : Int → Int) (spS spM maxAnswers : Nat)
    (doc : List Char) (answers : List Answer) (errorIn : Bool)
    (passageStartT : Int) (qlen plen : Nat) : List (Int × Int) × Bool :=
  let init := List.replicate maxAnswers ((-1 : Int), (-1 : Int))
  if errorIn ∨ answers.length = 0 then
    (init.set 0 (0, 0), errorIn)
  else
    convertAnswersLoop o2t spS spM doc passageStartT qlen plen answers 0 init

/-- The sample loop of `_convert_answers` for one basket, threading
`error_in_answer`. -/
def convertAnswersSamples (o2t : Int → Int) (spS spM maxAnswers : Nat)
    (raw : QARaw) : List QASample → Bool → List QASample
  | [], _ => []
  | s :: ss, err =>
    let r := convertAnswersSample o2t spS spM maxAnswers raw.document_text.data
      raw.answers err s.tokenized.passage_start_t
      s.tokenized.question_tokens.length s.tokenized.passage_tokens.length
    { s with tokenized := { s.tokenized with labels := some r.1 } } ::
      convertAnswersSamples o2t spS spM maxAnswers raw ss r.2

/-- `_convert_answers` over a list of baskets.  `o2tOf` is
`offset_to_token_idx_vecorized` partially applied per document.  A basket
whose `samples` was never set is left unchanged (in Python this would raise
on `enumerate(None)`; the pipeline only reaches this stage after windowing
has set `samples`). -/
def convertAnswers (o2tOf : List Int → Int → Int) (spS spM maxAnswers : Nat)
    (baskets : List QABasket) : List QABasket :=
  baskets.map fun b =>
    match b.samples with
    | none => b
    | some ss =>
        { b with samples := some (convertAnswersSamples
            (o2tOf b.raw.document_offsets) spS spM maxAnswers b.raw ss false) }

/-! ## `SquadProcessor._passages_to_paddle_features` (processor.py lines 551-663) -/

/-- Python `s.split("-")` at character level. -/
def splitDash : List Char → List (List Char)
  | [] => [[]]
  | c :: rest =>
    match splitDash rest with
    | [] => [[]]
    | h :: t => if c = '-' then [] :: h :: t else (c :: h) :: t

/-- The numeric value of a decimal digit character. -/
def digitVal (c : Char) : Option Nat :=
  if c.isDigit then some (c.toNat - '0'.toNat) else none

/-- Python `int(x)` on a non-empty string of decimal digits. -/
def parseNatChars (l : List Char) : Option Nat :=
  if l.isEmpty then none
  else l.foldl (fun acc c => acc.bind fun a => (digitVal c).map fun d => a * 10 + d)
    (some 0)

/-- Python `int(x)` allowing a leading minus sign. -/
def parseIntChars : List Char → Option Int
  | '-' :: rest => (parseNatChars rest).map fun n => -(n : Int)
  | l => (parseNatChars l).map fun n => (n : Int)

/-- `[int(x) for x in sample.id.split("-")]` (line 576).  Components that
are not integers are dropped (Python would raise `ValueError`; such ids
never arise, since sample ids are built from integer components). -/
def parseSampleId (s : String) : List Int :=
  (splitDash s.data).filterMap parseIntChars

/-- Feature conversion of a single QA sample (lines 564-662): `some rows`
is the one-element feature list assigned to `sample.features`; `none`
means the validation failed and `features` is set to `None` (the sample id
is recorded as problematic by the caller). -/
def featurizeQASample (tok : QATokenizer) (maxSeqLen maxAnswers : Nat)
    (returnBaskets : Bool) (s : QASample) : Option (List QAFeatureRow) :=
  let q := s.tokenized.question_tokens
  let qsow := s.tokenized.question_start_of_word
  let qlen := q.length
  let pst := s.tokenized.passage_start_t
  let p := s.tokenized.passage_tokens
  let psow := s.tokenized.passage_start_of_word
  let plen := p.length
  let sampleId := parseSampleId s.id
  let inputIds := buildInputsWithSpecialTokens tok q p
  let segmentIds := tok.segIds q p
  let seq2StartT := spToksStart tok + qlen + spToksMid tok
  let startOfWord := List.replicate (spToksStart tok) 0 ++ qsow ++
    List.replicate (spToksMid tok) 0 ++ psow ++ List.replicate (spToksEnd tok) 0
  let paddingMask := List.replicate inputIds.length 1
  let spanMask := List.replicate (spToksStart tok) 1 ++ List.replicate qlen 0 ++
    List.replicate (spToksMid tok) 0 ++ List.replicate plen 1 ++
    List.replicate (spToksEnd tok) 0
  let padN := maxSeqLen - inputIds.length
  let inputIdsP := inputIds ++ List.replicate padN tok.padTokenId
  let paddingMaskP := paddingMask ++ List.replicate padN 0
  let segmentIdsP := segmentIds ++ List.replicate padN 0
  let startOfWordP := startOfWord ++ List.replicate padN 0
  let spanMaskP := spanMask ++ List.replicate padN 0
  let lenCheck := (inputIdsP.length == paddingMaskP.length) &&
    (paddingMaskP.length == segmentIdsP.length) &&
    (segmentIdsP.length == startOfWordP.length) &&
    (startOfWordP.length == spanMaskP.length)
  let idCheck := sampleId.length == 3
  let labelCheck := returnBaskets ||
    ((s.tokenized.labels.getD []).length == maxAnswers)
  let labelCheck2 := returnBaskets ||
    ((s.tokenized.labels.getD []).all fun r =>
      decide (r.1 > -99) && decide (r.2 > -99))
  if lenCheck && idCheck && labelCheck && labelCheck2 then
    some [{ input_ids := inputIdsP
            padding_mask := paddingMaskP
            segment_ids := segmentIdsP
            passage_start_t := pst
            start_of_word := startOfWordP
            labels := s.tokenized.labels.getD []
            id := sampleId
            seq_2_start_t := seq2StartT
            span_mask := spanMaskP }]
  else
    none

/-- `_passages_to_paddle_features` over the baskets; the second component
collects the ids added to `self.problematic_sample_ids`. -/
def passagesToFeatures (tok : QATokenizer) (maxSeqLen maxAnswers : Nat)
    (returnBaskets : Bool) : List QABasket → List QABasket × List String
  | [] => ([], [])
  | b :: bs =>
    let ss := (b.samples.getD []).map fun s =>
      { s with features := featurizeQASample tok maxSeqLen maxAnswers returnBaskets s }
    let probHere := ((b.samples.getD []).filter fun s =>
      (featurizeQASample tok maxSeqLen maxAnswers returnBaskets s).isNone).map (·.id)
    let r := passagesToFeatures tok maxSeqLen maxAnswers returnBaskets bs
    ({ b with samples := some ss } :: r.1, probHere ++ r.2)

/-! ## `Processor._check_sample_features` (lines 164-183) and
`SquadProcessor._create_dataset` (lines 665-687) -/

/-- `_check_sample_features`: a basket is complete iff its sample list is
set, non-empty, and every sample has features. -/
def checkSampleFeatures (b : QABasket) : Bool :=
  match b.samples with
  | none => false
  | some ss => if ss.length = 0 then false else ss.all fun s => s.features.isSome

/-- The `features_flat` accumulation loop of `_create_dataset`
(lines 671-679). -/
def collectFlatFeatures : List QABasket → List QAFeatureRow
  | [] => []
  | b :: bs =>
    (if checkSampleFeatures b then
      ((b.samples.getD []).map fun s => s.features.getD []).flatten
    else []) ++ collectFlatFeatures bs

/-- The `basket_to_remove` accumulation (lines 677-679). -/
def incompleteBaskets (baskets : List QABasket) : List QABasket :=
  baskets.filter fun b => ¬ checkSampleFeatures b

/-- The removal loop `for basket in basket_to_remove: baskets.remove(basket)`
(lines 680-683): successive first-occurrence removal. -/
def removeBaskets (baskets toRemove : List QABasket) : List QABasket :=
  toRemove.foldl (fun acc b => acc.erase b) baskets

/-- `_create_dataset`: flat feature list plus surviving baskets (the
external `convert_features_to_dataset` sink consumes the flat list). -/
def createDataset (baskets : List QABasket) : List QAFeatureRow × List QABasket :=
  (collectFlatFeatures baskets, removeBaskets baskets (incompleteBaskets baskets))

/-! ## `SquadProcessor._split_docs_into_passages` (lines 372-457) -/

/-- One passage span returned by the external `get_passage_offsets`
utility. -/
structure PassageSpan where
  passage_id : Nat
  passage_start_t : Nat
  passage_end_t : Nat
  passage_start_c : Nat
  passage_end_c : Nat
deriving DecidableEq, Repr

/-- The external collaborators of the QA pipeline (spec section 6):
the paired tokenizer, the batch question/document tokenization stage, the
passage windowing utility (`none` models a raised exception, which the code
turns into zero passages), and the character→token offset lookup. -/
structure QACollab where
  tok : QATokenizer
  tokenizeBatch : List QaInputDict → Option (List Int) → List QABasket
  getPassageOffsets : List Int → Nat → Int → String → Option (List PassageSpan)
  o2t : List Int → Int → Int

/-- Windowing of one basket (lines 379-455).  An empty document is skipped
(`continue`), leaving `samples` unset. -/
def splitDocsBasket (c : QACollab) (maxSeqLen maxQueryLength docStride : Nat)
    (nSpecial : Nat) (b : QABasket) : QABasket :=
  if b.raw.document_text = "" then b
  else
    let passageLenT : Int :=
      (maxSeqLen : Int) - (b.raw.question_tokens.take maxQueryLength).length - nSpecial
    let spans := (c.getPassageOffsets b.raw.document_offsets docStride passageLenT
      b.raw.document_text).getD []
    let samples := spans.map fun span =>
      { id := b.id_internal ++ "-" ++ toString span.passage_id
        tokenized :=
          { passage_start_t := (span.passage_start_t : Int)
            passage_start_c := span.passage_start_c
            passage_tokens :=
              (b.raw.document_tokens.take span.passage_end_t).drop span.passage_start_t
            passage_start_of_word :=
              (b.raw.document_start_of_word.take span.passage_end_t).drop span.passage_start_t
            question_tokens := b.raw.question_tokens.take maxQueryLength
            question_offsets := b.raw.question_offsets.take maxQueryLength
            question_start_of_word := b.raw.question_start_of_word.take maxQueryLength
            labels := none } : QASample }
    { b with samples := some samples }

/-! ## `SquadProcessor.dataset_from_dicts` (lines 284-329)

The processor state that the call reads or writes is
`self.problematic_sample_ids` (a grow-only accumulator); it is threaded
explicitly.  `_log_samples` (a debug log using `random.choice`) has no
effect on the returned data and is not modelled. -/

/-- Static configuration of a `SquadProcessor`. -/
structure QAConfig where
  maxSeqLen : Nat
  maxQueryLength : Nat
  docStride : Nat
  maxAnswers : Nat
deriving DecidableEq, Repr

/-- `dataset_from_dicts`: `none` models a raised exception (format or
configuration error while normalizing some input dict).  On success the
triple is (flat feature rows, surviving baskets, updated
`problematic_sample_ids`). -/
def datasetFromDicts (c : QACollab) (cfg : QAConfig)
    (problematicIn : List String) (dicts : List QaInputDict)
    (indices : Option (List Int)) (returnBaskets : Bool) :
    Option (List QAFeatureRow × List QABasket × List String) :=
  match dicts.mapM (convertQaInputDict cfg.docStride cfg.maxSeqLen cfg.maxQueryLength) with
  | Except.error _ => none
  | Except.ok preBaskets =>
    let baskets := c.tokenizeBatch preBaskets indices
    let baskets := baskets.map
      (splitDocsBasket c cfg.maxSeqLen cfg.maxQueryLength cfg.docStride c.tok.numSpecialPair)
    let baskets :=
      if returnBaskets then baskets
      else convertAnswers c.o2t (spToksStart c.tok) (spToksMid c.tok) cfg.maxAnswers baskets
    let fb := passagesToFeatures c.tok cfg.maxSeqLen cfg.maxAnswers returnBaskets baskets
    let ds := createDataset fb.1
    some (ds.1, ds.2, problematicIn ++ fb.2)

/-! ## TextSimilarityProcessor data model (lines 690-1008) -/

/-- One entry of `basket.raw["passages"]`: `{title, text, label}`.
`title = none` models an absent `title` key. -/
structure CtxPassage where
  title : Option String
  text : String
  label : String
deriving DecidableEq, Repr

/-- The retrieval feature dictionary, built up incrementally from `{}`;
each field is `none` while its key is absent.  `passage_input_ids` /
`passage_segment_ids` hold whatever the passage tokenizer returned (kept
as a batch of id sequences, its most general shape). -/
structure RetFeature where
  query_input_ids : Option (List Nat) := none
  query_segment_ids : Option (List Nat) := none
  passage_input_ids : Option (List (List Nat)) := none
  passage_segment_ids : Option (List (List Nat)) := none
deriving DecidableEq, Repr

/-- A retrieval `Sample` (exactly one per basket). -/
structure RetSample where
  query_text : Option String := none
  query_tokens : Option (List String) := none
  clear_passages : Option (List CtxPassage) := none
  passages_tokens : Option (List (List String)) := none
  features : Option (List RetFeature) := none
deriving DecidableEq, Repr

/-- A retrieval `SampleBasket`.  `raw_query`/`raw_passages` are `none` when
the corresponding key is absent from the raw dict. -/
structure RetBasket where
  id_internal : Option Int := none
  raw_query : Option String := none
  raw_passages : Option (List CtxPassage) := none
  samples : Option (List RetSample) := none
deriving DecidableEq, Repr

/-- Result of calling the query tokenizer on a string. -/
structure QueryEnc where
  input_ids : List Nat
  token_type_ids : List Nat
deriving DecidableEq, Repr

/-- The query tokenizer collaborator: `self.query_tokenizer(query)` plus
`convert_ids_to_tokens`. -/
structure QueryTokenizer where
  encode : String → QueryEnc
  convertIdsToTokens : List Nat → List String

/-! ## `TextSimilarityProcessor._convert_queries` (lines 855-887) -/

/-- Processing of one basket inside `_convert_queries`.  The result is
`none` exactly when the body executes `return None` (zero-token query),
which aborts the whole function.  A failure of `_normalize_question`
(empty query raises `IndexError`) is caught by the `except` clause, which
nulls the features. -/
def convertQueryBasket (qt : QueryTokenizer) (b : RetBasket) : Option RetBasket :=
  match b.raw_query with
  | none => some { b with samples := some [{ features := some [{}] }] }
  | some rawQ =>
    match normalizeQuestion rawQ with
    | none => some { b with samples := some [{ features := none }] }
    | some query =>
      let queryInputs := qt.encode query
      let tokenizedQuery := qt.convertIdsToTokens queryInputs.input_ids
      if tokenizedQuery.length = 0 then none
      else
        some { b with samples := some [{
          query_text := some query
          query_tokens := some tokenizedQuery
          features := some [{ query_input_ids := some queryInputs.input_ids
                              query_segment_ids := some queryInputs.token_type_ids }] }] }

/-- `_convert_queries` over the basket list: `none` models the bare
`return None` (the caller then sees `None` instead of the basket list, and
baskets after the offending one are never converted). -/
def convertQueries (qt : QueryTokenizer) : List RetBasket → Option (List RetBasket)
  | [] => some []
  | b :: bs =>
    match convertQueryBasket qt b with
    | none => none
    | some b2 => (convertQueries qt bs).map (b2 :: ·)

/-! ## `TextSimilarityProcessor._convert_contexts` (lines 889-963) -/

/-- An element of `all_ctx`: the `embed_title` branch builds
`(title, text)` pairs, the other branch bare texts, and the padding always
appends `("", "")` pairs (Python freely mixes the two). -/
abbrev PassageInput := Sum String (String × String)

/-- What the passage tokenizer returns for one call. -/
structure PassageEnc where
  input_ids : List (List Nat)
  token_type_ids : List (List Nat)
deriving DecidableEq, Repr

/-- The passage tokenizer collaborator. -/
structure PassageTokenizer where
  encode : PassageInput → PassageEnc
  convertIdsToTokens : List Nat → List String

/-- `_combine_title_context` (lines 998-1008): zip titles and texts,
defaulting an absent title to the empty string. -/
def combineTitleContext (titles : List (Option String)) (texts : List String) :
    List (String × String) :=
  (titles.zip texts).map fun tc => (tc.1.getD "", tc.2)

/-- The combined, truncated and padded context list `all_ctx`
(lines 893-940).  `shuffle` models `random.shuffle`; it is applied only
under the corresponding flag. -/
def allCtxOf (numPositives numHardNegatives : Nat)
    (embedTitle shufflePositives shuffleNegatives : Bool)
    (shuffle : List CtxPassage → List CtxPassage)
    (passages : List CtxPassage) : List PassageInput :=
  let positiveAll := passages.filter fun x => x.label == "positive"
  let positiveCtx := (if shufflePositives then shuffle positiveAll else positiveAll).take
    numPositives
  let hardNegativeAll := passages.filter fun x => x.label == "hard_negative"
  let hardNegativeCtx := (if shuffleNegatives then shuffle hardNegativeAll
    else hardNegativeAll).take numHardNegatives
  let base : List PassageInput :=
    if embedTitle then
      ((combineTitleContext (positiveCtx.map fun p => p.title)
          (positiveCtx.map fun p => p.text) ++
        combineTitleContext (hardNegativeCtx.map fun p => p.title)
          (hardNegativeCtx.map fun p => p.text)).map Sum.inr)
    else
      ((positiveCtx.map fun p => p.text) ++ (hardNegativeCtx.map fun p => p.text)).map Sum.inl
  base ++ List.replicate ((numPositives + numHardNegatives) - base.length)
    (Sum.inr ("", ""))

/-- Processing of one basket inside `_convert_contexts`.  NOTE the code
tokenizes only `all_ctx[0]` (line 943: `self.passage_tokenizer(all_ctx[0])`),
not the whole combined list.  Any exception in the `try` block — here: an
empty `all_ctx` (index error), missing samples, or missing features — nulls
the sample's features. -/
def convertContextsBasket (pt : PassageTokenizer)
    (numPositives numHardNegatives : Nat)
    (embedTitle shufflePositives shuffleNegatives : Bool)
    (shuffle : List CtxPassage → List CtxPassage) (b : RetBasket) : RetBasket :=
  match b.raw_passages with
  | none => b
  | some passages =>
    let positiveAll := passages.filter fun x => x.label == "positive"
    let positiveCtx := (if shufflePositives then shuffle positiveAll else positiveAll).take
      numPositives
    let hardNegativeAll := passages.filter fun x => x.label == "hard_negative"
    let hardNegativeCtx := (if shuffleNegatives then shuffle hardNegativeAll
      else hardNegativeAll).take numHardNegatives
    let allCtx := allCtxOf numPositives numHardNegatives embedTitle
      shufflePositives shuffleNegatives shuffle passages
    match allCtx.head? with
    | none =>
      match b.samples with
      | some (s :: rest) => { b with samples := some ({ s with features := none } :: rest) }
      | _ => b
    | some ctx0 =>
      let ctxInputs := pt.encode ctx0
      let tokenizedPassage := ctxInputs.input_ids.map pt.convertIdsToTokens
      match b.samples with
      | some (s :: rest) =>
        let s2 := { s with
          clear_passages := some (positiveCtx ++ hardNegativeCtx)
          passages_tokens := some tokenizedPassage }
        match s2.features with
        | some (f :: fs) =>
          { b with samples := some ({ s2 with
              features := some ({ f with
                passage_input_ids := some ctxInputs.input_ids
                passage_segment_ids := some ctxInputs.token_type_ids } :: fs) } :: rest) }
        | _ => { b with samples := some ({ s2 with features := none } :: rest) }
      | _ => b

/-! ## Concrete instances used by witnesses and counterexamples -/

/-- A concrete QA tokenizer: one start, one mid and one end special token,
segment ids of matching length. -/
def tok0 : QATokenizer :=
  { startToks := [101], midToks := [102], endToks := [103]
    segIds := fun a b => List.replicate (a.length + 1) 0 ++ List.replicate (b.length + 2) 1
    numSpecialPair := 3
    padTokenId := 0 }

/-- A concrete QA sample (one-token question, two-token passage). -/
def s0 : QASample :=
  { id := "0-0-0"
    tokenized :=
      { passage_start_t := 0
        passage_start_c := 0
        passage_tokens := [6, 7]
        passage_start_of_word := [1, 0]
        question_tokens := [5]
        question_offsets := [0]
        question_start_of_word := [1]
        labels := some [(-1, -1)] } }

/-- The feature rows produced for `s0`. -/
def c1rows : List QAFeatureRow := (featurizeQASample tok0 8 1 false s0).getD []

/-- The (single) feature row produced for `s0`. -/
def c1row : QAFeatureRow := c1rows.headD ⟨[], [], [], 0, [], [], [], 0, []⟩

/-- Identity character→token offset lookup (a legitimate collaborator for a
document whose tokens are single characters). -/
def o2tId : Int → Int := fun c => c

/-- Concrete passage list: 3 positives followed by 5 hard negatives. -/
def retPassages0 : List CtxPassage :=
  [⟨some "pt1", "px1", "positive"⟩, ⟨some "pt2", "px2", "positive"⟩,
   ⟨some "pt3", "px3", "positive"⟩,
   ⟨some "nt1", "nx1", "hard_negative"⟩, ⟨some "nt2", "nx2", "hard_negative"⟩,
   ⟨some "nt3", "nx3", "hard_negative"⟩, ⟨some "nt4", "nx4", "hard_negative"⟩,
   ⟨some "nt5", "nx5", "hard_negative"⟩]

/-- A retrieval basket holding `retPassages0`, with the single sample and
empty feature dict left by `_convert_queries`. -/
def retBasket0 : RetBasket :=
  { id_internal := some 0
    raw_query := some "q"
    raw_passages := some retPassages0
    samples := some [{ features := some [{}] }] }

/-- A concrete query tokenizer: code points as ids (so the empty string
tokenizes to zero tokens). -/
def qt0 : QueryTokenizer :=
  { encode := fun s => ⟨s.data.map Char.toNat, s.data.map fun _ => 0⟩
    convertIdsToTokens := fun ids => ids.map toString }

/-- A basket whose query `"?"` normalizes to `""` and then tokenizes to
zero tokens. -/
def retB1 : RetBasket := { raw_query := some "?" }

/-- A well-behaved basket placed after `retB1`. -/
def retB2 : RetBasket := { raw_query := some "ok?" }

/-- The Paris example input dict of the spec. -/
def parisDict : QaInputDict :=
  { text := some "Paris is the capital of France."
    questions := some ["What is the capital of France?"]
    id := some "q1" }

/-- The normalized internal form of `parisDict`. -/
def parisInternal : QaInputDict :=
  { context := some "Paris is the capital of France."
    qas := some [{ question := "What is the capital of France?", id := some "q1"
                   answers := [], answer_type := none }] }

/-! ## Theorems -/

/-- C6 (amended): `SquadProcessor` construction fails with a configuration
error exactly when `doc_stride ≥ max_seq_len - max_query_length`.
`doc_stride=128` with `max_seq_len=384`, `max_query_length=64` is accepted,
and — contrary to the original claim — `doc_stride=300` with the same
parameters is also accepted (300 < 384 - 64 = 320); the smallest rejected
stride there is 320. -/
theorem C6_stride_check_amended :
    (∀ docStride maxSeqLen maxQueryLength : Int,
      squadInitAccepts docStride maxSeqLen maxQueryLength = false ↔
        maxSeqLen - maxQueryLength ≤ docStride) ∧
    squadInitAccepts 128 384 64 = true ∧
    squadInitAccepts 300 384 64 = true ∧
    squadInitAccepts 320 384 64 = false := by
  refine ⟨fun ds msl mql => ?_, by decide, by decide, by decide⟩
  simp [squadInitAccepts, not_lt]

/-- C6 (counterexample): the claim asserts that `doc_stride=300` with
`max_seq_len=384` and `max_query_length=64` raises a configuration error,
i.e. that `squadInitAccepts 300 384 64 = false`; in fact the assertion
passes. -/
theorem C6_stride_check_counterexample :
    ¬ squadInitAccepts 300 384 64 = false := by decide

/-- C10: `_normalize_question` is total exactly on non-empty strings — on
a non-empty string (written `l ++ [c]`) it returns the string with a
single trailing `'?'` removed (unchanged when the last character is not
`'?'`), and on the empty string it raises an `IndexError` (modelled as
`none`). -/
theorem C10_normalize_question :
    (∀ (l : List Char) (c : Char),
      normalizeQuestion (String.mk (l ++ [c])) =
        some (if c = '?' then String.mk l else String.mk (l ++ [c]))) ∧
    normalizeQuestion "" = none := by
  refine ⟨fun l c => ?_, rfl⟩
  simp only [normalizeQuestion, List.getLast?_concat, List.dropLast_concat]
  split <;> simp_all

/-- C7 (counterexample): the claim asserts that a zero-token query aborts
only that basket's conversion while the other baskets are still converted
and the basket list is still returned; in fact `_convert_queries` executes
`return None` on the first zero-token query (`retB1`, whose query `"?"`
normalizes to the empty string), so the whole call returns `None` and
`retB2` is never converted. -/
theorem C7_zero_token_query_counterexample :
    convertQueries qt0 [retB1, retB2] = none := rfl

/-- C7 (amended): when a basket's query tokenizes to zero tokens,
`_convert_queries` immediately returns `None`, aborting the conversion of
that basket and of every remaining basket; the basket list is not returned
to the caller. -/
theorem C7_zero_token_query_amended (qt : QueryTokenizer) (b : RetBasket)
    (q nq : String) (rest : List RetBasket)
    (hq : b.raw_query = some q)
    (hnorm : normalizeQuestion q = some nq)
    (htok : qt.convertIdsToTokens (qt.encode nq).input_ids = []) :
    convertQueries qt (b :: rest) = none := by
  simp [convertQueries, convertQueryBasket, hq, hnorm, htok]

/-- C7 (witness): the amended theorem applied to the concrete basket
`retB1`. -/
theorem C7_zero_token_query_witness :
    retB1.raw_query = some "?" ∧
    normalizeQuestion "?" = some "" ∧
    qt0.convertIdsToTokens (qt0.encode "").input_ids = [] ∧
    convertQueries qt0 [retB1] = none :=
  ⟨rfl, rfl, rfl, C7_zero_token_query_amended qt0 retB1 "?" "" [] rfl rfl rfl⟩

/-- C2 (counterexample): the claim asserts the shifted label indices are
assigned if and only if the token span lies in the half-open interval
`[0, passage_len)`.  For the answer `"bc"` at character 1 of document
`"abc"` with `passage_start_t = 0`, `passage_len = 2`, the end token index
is `2 = passage_len` — outside `[0, 2)` — yet the code assigns the shifted
indices `(4, 5)` (offset `sp_toks_start + question_len + sp_toks_mid = 3`),
not `(0, 0)` as the claim requires. -/
theorem C2_span_containment_counterexample :
    (convertAnswersSample o2tId 1 1 2 "abc".data [⟨"bc", 1⟩] false 0 1 2).1[0]? =
      some (4, 5) ∧
    ¬ answerEndT o2tId 0 ⟨"bc", 1⟩ < (2 : Int) ∧
    ((4 : Int), (5 : Int)) ≠ ((0 : Int), (0 : Int)) := by decide

/-- C3 (counterexample): the claim asserts that on an answer-text mismatch
this and all subsequent answers of the sample are marked `-100`.  With two
answers where the first (`"zz"`, not contained in document `"xy"`) fails
the check, only row 0 is set to `(-100, -100)`; row 1 keeps the initial
`(-1, -1)` sentinel because the loop breaks without touching it. -/
theorem C3_error_sentinel_counterexample :
    (convertAnswersSample (fun _ => 0) 0 0 2 "xy".data
        [⟨"zz", 0⟩, ⟨"x", 0⟩] false 0 0 1).1 =
      [(-100, -100), (-1, -1)] ∧
    ((-1 : Int), (-1 : Int)) ≠ ((-100 : Int), (-100 : Int)) := by decide

/-- Helper: on a single answer whose processing does not set
`error_in_answer`, the loop only writes the span row at slot 0. -/
theorem convertAnswersLoop_single (o2t : Int → Int) (spS spM : Nat)
    (doc : List Char) (pst : Int) (qlen plen : Nat) (a : Answer)
    (acc : List (Int × Int))
    (hflag : (convertAnswersLoop o2t spS spM doc pst qlen plen [a] 0 acc).2 = false) :
    convertAnswersLoop o2t spS spM doc pst qlen plen [a] 0 acc =
      (acc.set 0
        (if (plen : Int) > answerStartT o2t pst a ∧ answerStartT o2t pst a ≥ 0 ∧
            (plen : Int) ≥ answerEndT o2t pst a ∧ answerEndT o2t pst a ≥ 0
         then ((spS : Int) + qlen + spM + answerStartT o2t pst a,
               (spS : Int) + qlen + spM + answerEndT o2t pst a)
         else (0, 0)), false) := by
  simp only [convertAnswersLoop] at hflag ⊢
  by_cases hskip : answerStartT o2t pst a < 0 ∨ answerEndT o2t pst a ≥ (plen : Int)
  · rw [if_pos hskip]
    split <;> simp_all
  · rw [if_neg hskip] at hflag ⊢
    by_cases h2 : ¬ pySubstrTest a.text.data doc = true
    · rw [if_pos h2] at hflag; simp at hflag
    · rw [if_neg h2] at hflag ⊢
      by_cases h3 : pyStrip (pySlice doc a.answer_start (a.answer_start + a.text.length)) ≠
          pyStrip a.text.data
      · rw [if_pos h3] at hflag; simp at hflag
      · rw [if_neg h3]
        split <;> simp_all

/-- C2 (amended): for a single answer whose separate content check does not
flag an error, the label row is the shifted token indices plus the fixed
offset `sp_toks_start + question_len + sp_toks_mid` if and only if the
start token index lies in the half-open interval `[0, passage_len)` and the
end token index lies in the closed interval `[0, passage_len]` (the code
accepts `answer_end_t = passage_len`); otherwise the row is `(0, 0)`. -/
theorem C2_span_containment_amended (o2t : Int → Int) (spS spM ma : Nat)
    (doc : List Char) (a : Answer) (pst : Int) (qlen plen : Nat)
    (hma : 0 < ma)
    (hflag : (convertAnswersSample o2t spS spM ma doc [a] false pst qlen plen).2 = false) :
    (convertAnswersSample o2t spS spM ma doc [a] false pst qlen plen).1[0]? =
      some (if 0 ≤ answerStartT o2t pst a ∧ answerStartT o2t pst a < (plen : Int) ∧
               0 ≤ answerEndT o2t pst a ∧ answerEndT o2t pst a ≤ (plen : Int)
            then ((spS : Int) + qlen + spM + answerStartT o2t pst a,
                  (spS : Int) + qlen + spM + answerEndT o2t pst a)
            else (0, 0)) := by
  obtain ⟨k, rfl⟩ : ∃ k, ma = k + 1 := ⟨ma - 1, by omega⟩
  simp only [convertAnswersSample] at hflag ⊢
  rw [if_neg (by simp)] at hflag ⊢
  rw [convertAnswersLoop_single o2t spS spM doc pst qlen plen a _ hflag]
  simp only [List.replicate_succ, List.set_cons_zero, List.getElem?_cons_zero]
  congr 1
  refine if_congr ⟨fun h => ⟨h.2.1, h.1, h.2.2.2, h.2.2.1⟩,
    fun h => ⟨h.2.1, h.1, h.2.2.2, h.2.2.1⟩⟩ rfl rfl

/-- C2 (witness): the amended theorem at the concrete borderline input of
the counterexample (end token index equal to `passage_len`). -/
theorem C2_span_containment_witness :
    (0 : Nat) < 2 ∧
    (convertAnswersSample o2tId 1 1 2 "abc".data [⟨"bc", 1⟩] false 0 1 2).2 = false ∧
    (convertAnswersSample o2tId 1 1 2 "abc".data [⟨"bc", 1⟩] false 0 1 2).1[0]? =
      some (4, 5) :=
  ⟨by decide, by decide,
    (C2_span_containment_amended o2tId 1 1 2 "abc".data ⟨"bc", 1⟩ 0 1 2
      (by decide) (by decide)).trans (by decide)⟩

/-- C3 (amended): when the content check fires on an answer (the answer is
inside the passage but its text is not contained in the document, or the
re-extracted substring mismatches the gold text after trimming), that
answer's label row is set to `(-100, -100)`, `error_in_answer` becomes
true, and the loop over answers stops; the label rows of all subsequent
answers keep the initial `(-1, -1)` sentinel (they are not marked `-100`). -/
theorem C3_error_sentinel_amended (o2t : Int → Int) (spS spM ma : Nat)
    (doc : List Char) (a : Answer) (rest : List Answer) (pst : Int)
    (qlen plen : Nat)
    (hin : ¬ (answerStartT o2t pst a < 0 ∨ answerEndT o2t pst a ≥ (plen : Int)))
    (hbad : ¬ pySubstrTest a.text.data doc = true ∨
      pyStrip (pySlice doc a.answer_start (a.answer_start + a.text.length)) ≠
        pyStrip a.text.data) :
    convertAnswersSample o2t spS spM ma doc (a :: rest) false pst qlen plen =
      ((List.replicate ma ((-1 : Int), (-1 : Int))).set 0 (-100, -100), true) := by
  simp only [convertAnswersSample, convertAnswersLoop]
  rw [if_neg (by simp), if_neg hin]
  by_cases h2 : ¬ pySubstrTest a.text.data doc = true
  · rw [if_pos h2]
    split <;> rw [List.set_set]
  · rcases hbad with h2x | h3
    · exact absurd h2x h2
    · rw [if_neg h2, if_pos h3]
      split <;> rw [List.set_set]

/-- C3 (witness): the amended theorem at the concrete input of the
counterexample (gold text `"zz"` absent from document `"xy"`). -/
theorem C3_error_sentinel_witness :
    (¬ (answerStartT (fun _ => 0) 0 ⟨"zz", 0⟩ < 0 ∨
        answerEndT (fun _ => 0) 0 ⟨"zz", 0⟩ ≥ (1 : Int))) ∧
    (¬ pySubstrTest (Answer.text ⟨"zz", 0⟩).data "xy".data = true) ∧
    convertAnswersSample (fun _ => 0) 0 0 2 "xy".data [⟨"zz", 0⟩, ⟨"x", 0⟩]
        false 0 0 1 =
      ((List.replicate 2 ((-1 : Int), (-1 : Int))).set 0 (-100, -100), true) :=
  ⟨by decide, by decide,
    C3_error_sentinel_amended (fun _ => 0) 0 0 2 "xy".data ⟨"zz", 0⟩ [⟨"x", 0⟩]
      0 0 1 (by decide) (Or.inl (by decide))⟩

/-- C5: for the concrete basket with 3 positive and 5 hard-negative
passages and `num_positives=1`, `num_hard_negatives=2` (no shuffling), the
combined context list has exactly 3 entries in order
[positive, hard_negative, hard_negative]; but the code then calls the
passage tokenizer on `all_ctx[0]` only, so for EVERY passage tokenizer the
stored `passage_input_ids` is the encoding of the first entry alone, not
one token-id sequence per entry. -/
theorem C5_first_entry_only_tokenized (shuffle : List CtxPassage → List CtxPassage)
    (pt : PassageTokenizer) :
    allCtxOf 1 2 true false false shuffle retPassages0 =
      [Sum.inr ("pt1", "px1"), Sum.inr ("nt1", "nx1"), Sum.inr ("nt2", "nx2")] ∧
    convertContextsBasket pt 1 2 true false false shuffle retBasket0 =
      { retBasket0 with samples := some [{
          clear_passages := some [⟨some "pt1", "px1", "positive"⟩,
            ⟨some "nt1", "nx1", "hard_negative"⟩,
            ⟨some "nt2", "nx2", "hard_negative"⟩]
          passages_tokens := some
            ((pt.encode (Sum.inr ("pt1", "px1"))).input_ids.map pt.convertIdsToTokens)
          features := some [{
            passage_input_ids := some (pt.encode (Sum.inr ("pt1", "px1"))).input_ids
            passage_segment_ids :=
              some (pt.encode (Sum.inr ("pt1", "px1"))).token_type_ids }] }] } :=
  ⟨rfl, rfl⟩

/-- Helper: membership in the `features_flat` accumulation. -/
theorem mem_collectFlatFeatures (row : QAFeatureRow) (baskets : List QABasket) :
    row ∈ collectFlatFeatures baskets ↔
      ∃ b ∈ baskets, checkSampleFeatures b = true ∧
        ∃ s ∈ b.samples.getD [], row ∈ s.features.getD [] := by
  induction baskets with
  | nil => simp [collectFlatFeatures]
  | cons b bs ih =>
    simp only [collectFlatFeatures, List.mem_append, ih, List.mem_cons]
    by_cases hb : checkSampleFeatures b = true
    · rw [if_pos hb]
      simp only [List.mem_flatten, List.mem_map]
      constructor
      · rintro (⟨l, ⟨s, hs, rfl⟩, hrow⟩ | ⟨b2, hb2, h⟩)
        · exact ⟨b, Or.inl rfl, hb, s, hs, hrow⟩
        · exact ⟨b2, Or.inr hb2, h⟩
      · rintro ⟨b2, hb2 | hb2, hcheck, s, hs, hrow⟩
        · subst hb2; exact Or.inl ⟨s.features.getD [], ⟨s, hs, rfl⟩, hrow⟩
        · exact Or.inr ⟨b2, hb2, hcheck, s, hs, hrow⟩
    · rw [if_neg hb]
      simp only [List.not_mem_nil, false_or]
      constructor
      · rintro ⟨b2, hb2, h⟩
        exact ⟨b2, Or.inr hb2, h⟩
      · rintro ⟨b2, hb2 | hb2, hcheck, h⟩
        · subst hb2; exact absurd hcheck hb
        · exact ⟨b2, hb2, hcheck, h⟩

/-- Helper: removing elements that differ from the head leaves the head. -/
theorem removeBaskets_cons (b : QABasket) (l rem : List QABasket)
    (h : ∀ y ∈ rem, y ≠ b) :
    removeBaskets (b :: l) rem = b :: removeBaskets l rem := by
  induction rem generalizing l with
  | nil => rfl
  | cons y rem ih =>
    have hyb : y ≠ b := h y (by simp)
    simp only [removeBaskets, List.foldl_cons]
    rw [List.erase_cons_tail (by simpa using fun e => hyb e.symm)]
    exact ih (l.erase y) fun z hz => h z (by simp [hz])

/-- Helper: the removal loop of `_create_dataset` leaves exactly the
complete baskets. -/
theorem removeBaskets_filter (baskets : List QABasket) :
    removeBaskets baskets (incompleteBaskets baskets) =
      baskets.filter fun b => checkSampleFeatures b := by
  induction baskets with
  | nil => rfl
  | cons b bs ih =>
    by_cases hb : checkSampleFeatures b = true
    · have h1 : incompleteBaskets (b :: bs) = incompleteBaskets bs := by
        simp [incompleteBaskets, hb]
      rw [h1, removeBaskets_cons b bs _ ?_, ih, List.filter_cons_of_pos hb]
      intro y hy hyb
      have hyc : ¬ checkSampleFeatures y = true := by
        simpa [incompleteBaskets] using List.of_mem_filter hy
      rw [hyb] at hyc
      exact hyc hb
    · have h1 : incompleteBaskets (b :: bs) = b :: incompleteBaskets bs := by
        simp [incompleteBaskets, hb]
      rw [h1, List.filter_cons_of_neg (by simpa using hb)]
      show List.foldl (fun acc x => acc.erase x) ((b :: bs).erase b)
        (incompleteBaskets bs) = _
      rw [List.erase_cons_head]
      exact ih

/-- C4: `_create_dataset` includes a sample's feature rows in the flat
feature list iff the sample's owning basket is complete (non-empty sample
list, every sample with features); the surviving basket list is exactly
the complete baskets, so a sample with `features = None` never contributes
a row. -/
theorem C4_complete_baskets_only (baskets : List QABasket) :
    (∀ row : QAFeatureRow, row ∈ (createDataset baskets).1 ↔
      ∃ b ∈ baskets, checkSampleFeatures b = true ∧
        ∃ s ∈ b.samples.getD [], row ∈ s.features.getD []) ∧
    (createDataset baskets).2 = baskets.filter fun b => checkSampleFeatures b :=
  ⟨fun row => mem_collectFlatFeatures row baskets, removeBaskets_filter baskets⟩

/-- C1: under the collaborator contracts — `get_passage_offsets` keeps each
passage within the reserved token budget (so question + passage + pair
special tokens fit in `max_seq_len`) and `build_inputs_with_special_tokens`
adds exactly `num_special_tokens_to_add(pair=True)` tokens — every sample
that passes validation and receives a non-`None` features dictionary has
`input_ids`, `padding_mask`, `segment_ids`, `start_of_word` and `span_mask`
all of length exactly `max_seq_len`. -/
theorem C1_feature_row_lengths (tok : QATokenizer) (maxSeqLen maxAnswers : Nat)
    (returnBaskets : Bool) (s : QASample) (rows : List QAFeatureRow)
    (hbudget : s.tokenized.question_tokens.length + s.tokenized.passage_tokens.length +
      tok.numSpecialPair ≤ maxSeqLen)
    (hspecial : tok.startToks.length + tok.midToks.length + tok.endToks.length =
      tok.numSpecialPair)
    (hsome : featurizeQASample tok maxSeqLen maxAnswers returnBaskets s = some rows) :
    ∀ row ∈ rows, row.input_ids.length = maxSeqLen ∧ row.padding_mask.length = maxSeqLen ∧
      row.segment_ids.length = maxSeqLen ∧ row.start_of_word.length = maxSeqLen ∧
      row.span_mask.length = maxSeqLen := by
  simp only [featurizeQASample, buildInputsWithSpecialTokens, spToksStart, spToksMid,
    spToksEnd] at hsome
  split at hsome
  case isFalse => exact absurd hsome (by simp)
  case isTrue hcond =>
    simp only [Bool.and_eq_true, beq_iff_eq] at hcond
    obtain ⟨⟨⟨⟨⟨h1, h2⟩, h3⟩, h4⟩, _⟩, _⟩ := hcond
    have hrows := Option.some.inj hsome
    subst hrows
    intro row hrow
    rw [List.mem_singleton] at hrow
    subst hrow
    simp only [List.length_append, List.length_replicate] at h1 h2 h3 h4 ⊢
    refine ⟨by omega, by omega, by omega, by omega, by omega⟩

/-- C1 (witness): the theorem at the concrete tokenizer `tok0` and sample
`s0`, whose feature row has all five arrays of length `max_seq_len = 8`. -/
theorem C1_feature_row_lengths_witness :
    (s0.tokenized.question_tokens.length + s0.tokenized.passage_tokens.length +
      tok0.numSpecialPair ≤ 8) ∧
    featurizeQASample tok0 8 1 false s0 = some c1rows ∧
    (c1row.input_ids.length = 8 ∧ c1row.padding_mask.length = 8 ∧
     c1row.segment_ids.length = 8 ∧ c1row.start_of_word.length = 8 ∧
     c1row.span_mask.length = 8) :=
  ⟨by decide, rfl,
    C1_feature_row_lengths tok0 8 1 false s0 c1rows (by decide) (by decide) rfl
      c1row (by decide)⟩

/-- C8: an input dict in the external API shape (keys `text` and
`questions` present, and not both internal keys `context` and `qas`
present) is rewritten to the internal shape: `context` is the text and
`qas` carries one entry per question with the supplied id (or none), an
empty answers list and a null answer type. -/
theorem C8_external_shape (docStride maxSeqLen maxQueryLength : Int)
    (d : QaInputDict) (t : String) (qs : List String)
    (hcfg : docStride < maxSeqLen - maxQueryLength)
    (ht : d.text = some t) (hq : d.questions = some qs)
    (hext : (d.context.isSome && d.qas.isSome) = false) :
    convertQaInputDict docStride maxSeqLen maxQueryLength d =
      Except.ok { context := some t
                  qas := some (qs.map fun q =>
                    { question := q, id := d.id, answers := [], answer_type := none }) } := by
  unfold convertQaInputDict
  rw [if_neg (not_not_intro hcfg), if_neg (by simp [hext]), hq, ht]

/-- C8 (witness): the Paris example of the spec normalizes to the expected
internal dict. -/
theorem C8_external_shape_witness :
    ((128 : Int) < 384 - 64) ∧
    parisDict.text = some "Paris is the capital of France." ∧
    parisDict.questions = some ["What is the capital of France?"] ∧
    (parisDict.context.isSome && parisDict.qas.isSome) = false ∧
    convertQaInputDict 128 384 64 parisDict = Except.ok parisInternal :=
  ⟨by decide, rfl, rfl, rfl,
    (C8_external_shape 128 384 64 parisDict _ _ (by decide) rfl rfl rfl).trans rfl⟩

/-- C9: `dataset_from_dicts` is deterministic over its returned feature
rows.  The only processor state the call touches is the grow-only
`problematic_sample_ids` accumulator, and the feature rows do not depend on
it: with the same deterministic collaborators, input dicts, indices and
`return_baskets` flag, any two runs — in particular a second run started
from the state the first one left behind — produce identical feature
rows. -/
theorem C9_feature_rows_deterministic (c : QACollab) (cfg : QAConfig)
    (p1 p2 : List String) (dicts : List QaInputDict)
    (indices : Option (List Int)) (returnBaskets : Bool) :
    Option.map (fun r => r.1) (datasetFromDicts c cfg p1 dicts indices returnBaskets) =
    Option.map (fun r => r.1) (datasetFromDicts c cfg p2 dicts indices returnBaskets) := by
  unfold datasetFromDicts
  cases dicts.mapM (convertQaInputDict cfg.docStride cfg.maxSeqLen cfg.maxQueryLength) <;>
    rfl

end PipelinesProc
